import Mathlib

/-!
Verification development for the poc-engine rendering core.

Shallow embedding of the C sources under src/ (poc_engine.c,
vulkan_renderer.c).  External effects (Vulkan API calls, window system
queries, mallocs) are modelled by explicit environment records supplying
their outcomes; GPU buffer/memory objects are modelled as natural-number
handles handed out freshly, with the set of live allocations tracked as a
list.  32-bit float values are modelled by their IEEE-754 bit patterns
(plain naturals), since the code only ever copies them bit-for-bit along
the paths studied here; float arithmetic performed by cglm (lookat,
perspective) is abstracted as environment-supplied matrix values.
-/

namespace Poc

/-- Result codes of the public API (include/poc_engine.h, `poc_result`). -/
inductive poc_result where
  | success
  | errorInitFailed
  | errorDeviceNotFound
  | errorSurfaceCreationFailed
  | errorSwapchainCreationFailed
  | errorOutOfMemory
  | errorShaderCompilationFailed
  | errorPipelineCreationFailed
  deriving DecidableEq, Repr

/-- Renderer backend selector (include/poc_engine.h, `poc_renderer_type`).
On the Linux build studied here only the Vulkan member exists; `metal`
stands for any other enum value reaching the `else` branch of poc_init. -/
inductive poc_renderer_type where
  | vulkan
  | metal
  deriving DecidableEq, Repr

/-- Engine configuration (include/poc_engine.h, `poc_config`). -/
structure poc_config where
  renderer_type : poc_renderer_type
  enable_validation : Bool
  app_name : String
  app_version : Nat
  deriving DecidableEq, Repr

/-- The two globals of src/src/poc_engine.c that poc_init reads and writes
(`g_initialized`, `g_current_renderer`).  `g_start_time` is wall-clock
state and is not modelled. -/
structure EngineState where
  g_initialized : Bool
  g_current_renderer : poc_renderer_type
  deriving DecidableEq, Repr

/-- Shallow embedding of `poc_init` (src/src/poc_engine.c lines 20-69,
POC_PLATFORM_LINUX branch).  A NULL `config` pointer is `none`.
`vulkanInitResult` supplies the outcome of the external `vulkan_init`
call. -/
def poc_init (s : EngineState) (config : Option poc_config)
    (vulkanInitResult : poc_result) : poc_result × EngineState :=
  if s.g_initialized then (.success, s)
  else
    match config with
    | none => (.errorInitFailed, s)
    | some cfg =>
      let s1 : EngineState := { s with g_current_renderer := cfg.renderer_type }
      match cfg.renderer_type with
      | .vulkan =>
        if vulkanInitResult ≠ .success then (vulkanInitResult, s1)
        else (.success, { s1 with g_initialized := true })
      | .metal => (.errorInitFailed, s1)

/-- C9: once a poc_init call has succeeded (g_initialized is set) and
poc_shutdown has not cleared it, every further poc_init call returns
success at once, leaving the state untouched and never inspecting the
config argument (so even `config = none`, a NULL pointer, succeeds),
although on a fresh engine a NULL config fails with init-failed. -/
theorem c9_reinit_ignores_config (s : EngineState) (config : Option poc_config)
    (vres : poc_result) (r : poc_renderer_type) (vres2 : poc_result)
    (h : s.g_initialized = true) :
    poc_init s config vres = (.success, s) ∧
    poc_init ⟨false, r⟩ none vres2 = (.errorInitFailed, ⟨false, r⟩) := by
  refine ⟨?_, ?_⟩
  · simp [poc_init, h]
  · simp [poc_init]

/-- Witness for C9 at a concrete initialized state and NULL config. -/
theorem c9_reinit_ignores_config_witness :
    poc_init ⟨true, .vulkan⟩ none .errorOutOfMemory = (.success, ⟨true, .vulkan⟩) ∧
    poc_init ⟨false, .vulkan⟩ none .success = (.errorInitFailed, ⟨false, .vulkan⟩) := by
  exact c9_reinit_ignores_config ⟨true, .vulkan⟩ none .errorOutOfMemory .vulkan .success rfl

/-! ## Renderable resource manager (src/src/vulkan_renderer.c)

The per-object resource system: `poc_context_create_renderable`,
`poc_context_destroy_renderable`, `create_renderable_buffers` (the shared
buffer-(re)creation path used by `poc_renderable_load_model`),
`poc_renderable_set_transform` and `update_renderable_uniform_buffer`.

A `mat4` / `vec3` / float value is represented by its bit pattern:
`Mat4` is a 4x4 grid of 32-bit patterns, `Vec3Bits` a triple.  Pointer
identity of a `poc_renderable*` is modelled by a numeric `id` handed out
freshly by the context; Vulkan buffer and device-memory objects are
numeric handles from the context's `next_handle` counter, and the list
`live` holds the handles currently allocated, in allocation order. -/

/-- Bit-pattern representation of a cglm `mat4` (row-major list of rows). -/
abbrev Mat4 := List (List Nat)

/-- Bit-pattern representation of a cglm `vec3`. -/
abbrev Vec3Bits := Nat × Nat × Nat

/-- IEEE-754 single-precision bit pattern of 1.0f. -/
def floatOneBits : Nat := 1065353216

/-- Bit patterns of the identity matrix written by `glm_mat4_identity`. -/
def identityMat4 : Mat4 :=
  [[floatOneBits, 0, 0, 0],
   [0, floatOneBits, 0, 0],
   [0, 0, floatOneBits, 0],
   [0, 0, 0, floatOneBits]]

/-- Material record (src/src/obj_loader.h, `poc_material`); colour and
scalar fields are float bit patterns. -/
structure poc_material where
  name : String
  ambient : Vec3Bits
  diffuse : Vec3Bits
  specular : Vec3Bits
  shininess : Nat
  opacity : Nat
  deriving DecidableEq, Repr

/-- Vertex record (src/src/obj_loader.h, `poc_vertex`):
position, normal, texcoord as float bit patterns. -/
structure poc_vertex where
  position : Vec3Bits
  normal : Vec3Bits
  texcoord : Nat × Nat
  deriving DecidableEq, Repr

/-- Contents of the shader uniform block (src/src/vulkan_renderer.c,
`UniformBufferObject`); padding floats are not modelled. -/
structure UniformBufferObject where
  model : Mat4
  view : Mat4
  proj : Mat4
  ambient_color : Vec3Bits
  diffuse_color : Vec3Bits
  specular_color : Vec3Bits
  shininess : Nat
  light_pos : Vec3Bits
  view_pos : Vec3Bits
  deriving DecidableEq, Repr

/-- One `struct poc_renderable` (src/src/vulkan_renderer.c lines 68-95).
`id` models the pointer identity of the heap object.  Buffer and memory
handles are `none` when the C field is VK_NULL_HANDLE.  `uniform_mapped`
is true when `uniform_buffer_mapped` is a non-null pointer;
`uniform_contents` is what that mapped region holds (none = never
written).  `vertex_data` / `index_data` are the payloads staged into the
device-local vertex/index buffers. -/
structure poc_renderable where
  id : Nat
  vertex_buffer : Option Nat
  vertex_buffer_memory : Option Nat
  index_buffer : Option Nat
  index_buffer_memory : Option Nat
  vertex_count : Nat
  index_count : Nat
  vertex_data : List poc_vertex
  index_data : List Nat
  uniform_buffer : Option Nat
  uniform_buffer_memory : Option Nat
  uniform_mapped : Bool
  uniform_contents : Option UniformBufferObject
  descriptor_set : Option Nat
  material : poc_material
  has_material : Bool
  model_matrix : Mat4
  name : String
  deriving DecidableEq, Repr

/-- The slice of `struct poc_context` owning the renderable collection
(fields `renderables`, `renderable_count`, `renderable_capacity`) plus
the allocation model: `next_id` generates fresh pointer identities
(malloc), `next_handle` fresh Vulkan object handles, `live` the handles
currently allocated. -/
structure RenderContextState where
  renderables : List poc_renderable
  renderable_capacity : Nat
  next_id : Nat
  next_handle : Nat
  live : List Nat
  deriving DecidableEq, Repr

/-- The six buffer/memory handles held by a renderable, in the order
`poc_context_destroy_renderable` releases them (vertex buffer, vertex
memory, index buffer, index memory, uniform buffer, uniform memory). -/
def renderableHandles (r : poc_renderable) : List Nat :=
  r.vertex_buffer.toList ++ r.vertex_buffer_memory.toList ++
  r.index_buffer.toList ++ r.index_buffer_memory.toList ++
  r.uniform_buffer.toList ++ r.uniform_buffer_memory.toList

/-- Release a list of handles from the live-allocation list
(vkDestroyBuffer / vkFreeMemory). -/
def freeHandles (live : List Nat) (hs : List Nat) : List Nat :=
  live.filter (fun h => decide (h ∉ hs))

/-- Shallow embedding of `poc_context_create_renderable`
(src/src/vulkan_renderer.c lines 2659-2704).  The realloc and malloc are
modelled as succeeding; capacity doubles when the collection is full, the
new record is appended with identity transform and all Vulkan handles
null, named either by the caller (truncated to 255 bytes by strncpy) or
"Renderable_<count>". -/
def poc_context_create_renderable (s : RenderContextState) (name : Option String) :
    poc_renderable × RenderContextState :=
  let cap := if s.renderables.length ≥ s.renderable_capacity
             then s.renderable_capacity * 2 else s.renderable_capacity
  let rname := match name with
    | some n => n.take 255
    | none => "Renderable_" ++ toString s.renderables.length
  let r : poc_renderable :=
    { id := s.next_id
      vertex_buffer := none, vertex_buffer_memory := none
      index_buffer := none, index_buffer_memory := none
      vertex_count := 0, index_count := 0
      vertex_data := [], index_data := []
      uniform_buffer := none, uniform_buffer_memory := none
      uniform_mapped := false, uniform_contents := none
      descriptor_set := none
      material := ⟨"", (0,0,0), (0,0,0), (0,0,0), 0, 0⟩
      has_material := false
      model_matrix := identityMat4
      name := rname }
  (r, { s with renderables := s.renderables ++ [r]
               renderable_capacity := cap
               next_id := s.next_id + 1 })

/-- Shallow embedding of `poc_context_destroy_renderable`
(src/src/vulkan_renderer.c lines 2706-2756), keyed by the pointer
identity `rid`.  The record is searched for in the collection; when
absent the function is a warning-only no-op.  When found, its six
buffer/memory handles are released (descriptor sets stay with the pool),
the heap object is freed and the record is removed by shifting the
remaining entries down one slot. -/
def poc_context_destroy_renderable (s : RenderContextState) (rid : Nat) :
    RenderContextState :=
  match s.renderables.find? (fun r => r.id == rid) with
  | none => s
  | some r =>
    { s with live := freeHandles s.live (renderableHandles r)
             renderables := s.renderables.eraseP (fun x => x.id == rid) }

/-- Clearing of a renderable's prior buffers at the top of
`create_renderable_buffers` (lines 2763-2791): each non-null buffer or
memory object is destroyed and nulled, and the uniform buffer is
unmapped first when mapped. -/
def clearRenderableBuffers (r : poc_renderable) : poc_renderable :=
  { r with vertex_buffer := none, vertex_buffer_memory := none
           index_buffer := none, index_buffer_memory := none
           uniform_buffer := none, uniform_buffer_memory := none
           uniform_mapped := false, uniform_contents := none }

/-- The renderable record as left by a successful
`create_renderable_buffers` call that started handing out handles at `n`:
device-local vertex buffer/memory (n+2, n+3), index buffer/memory
(n+6, n+7), persistently mapped uniform buffer/memory (n+8, n+9, mapped
but not yet written), descriptor set (n+10), and the staged data and
counts. -/
def loadedRenderable (n : Nat) (vertices : List poc_vertex) (indices : List Nat)
    (r : poc_renderable) : poc_renderable :=
  { clearRenderableBuffers r with
      vertex_buffer := some (n+2), vertex_buffer_memory := some (n+3)
      index_buffer := some (n+6), index_buffer_memory := some (n+7)
      vertex_count := vertices.length, index_count := indices.length
      vertex_data := vertices, index_data := indices
      uniform_buffer := some (n+8), uniform_buffer_memory := some (n+9)
      uniform_mapped := true, uniform_contents := none
      descriptor_set := some (n+10) }

/-- Allocation-order events emitted by `create_renderable_buffers`. -/
inductive AllocEvent where
  | freeHandle (h : Nat)
  | alloc (h : Nat)
  deriving DecidableEq, Repr

/-- Update the record with pointer identity `rid` in place (mutation
through the `poc_renderable*` also updates the collection entry, since
the collection stores the pointer). -/
def modifyRenderable (rs : List poc_renderable) (rid : Nat)
    (f : poc_renderable → poc_renderable) : List poc_renderable :=
  rs.map (fun r => if r.id == rid then f r else r)

/-- Shallow embedding of `create_renderable_buffers`
(src/src/vulkan_renderer.c lines 2758-2986), keyed by pointer identity.
Mirrors the code's order with all Vulkan calls succeeding: (0) reject
null/empty inputs; (1) destroy the prior vertex/index/uniform buffers and
memories and unmap the uniform buffer; (2) vertex staging buffer+memory
(handles n, n+1), device-local vertex buffer+memory (n+2, n+3),
synchronous one-shot copy, staging freed; (3) the same for indices
(n+4..n+7); (4) persistently mapped uniform buffer+memory (n+8, n+9) and
a descriptor set (n+10, owned by the context's pool, hence not in
`live`).  The returned event list records the free/alloc order. -/
def create_renderable_buffers (s : RenderContextState) (rid : Nat)
    (vertices : List poc_vertex) (indices : List Nat) :
    poc_result × RenderContextState × List AllocEvent :=
  if vertices = [] ∨ indices = [] then (.errorInitFailed, s, [])
  else
    match s.renderables.find? (fun r => r.id == rid) with
    | none => (.errorInitFailed, s, [])
    | some r =>
      let old := renderableHandles r
      let n := s.next_handle
      let live0 := freeHandles s.live old
      let live1 := freeHandles (live0 ++ [n, n+1, n+2, n+3]) [n, n+1]
      let live2 := freeHandles (live1 ++ [n+4, n+5, n+6, n+7]) [n+4, n+5]
      let live3 := live2 ++ [n+8, n+9]
      let events :=
        old.map .freeHandle ++
        [n, n+1, n+2, n+3].map .alloc ++ [n, n+1].map .freeHandle ++
        [n+4, n+5, n+6, n+7].map .alloc ++ [n+4, n+5].map .freeHandle ++
        [n+8, n+9, n+10].map .alloc
      (.success,
       { s with live := live3
                next_handle := n + 11
                renderables := modifyRenderable s.renderables rid
                  (loadedRenderable n vertices indices) },
       events)

/-- Shallow embedding of `poc_renderable_set_transform`
(src/src/vulkan_renderer.c lines 3046-3051): `glm_mat4_copy` of the
argument into the in-memory model matrix, nothing else. -/
def poc_renderable_set_transform (r : poc_renderable) (transform : Mat4) :
    poc_renderable :=
  { r with model_matrix := transform }

/-- Results of the cglm float computations inside
`update_renderable_uniform_buffer` and the float literals it writes,
supplied as bit patterns: `view` is glm_lookat(eye, center, up), `proj`
is glm_perspective(..) with entry [1][1] negated, and the default
material and light/eye constants are the literals of lines 2204,
2233-2248. -/
structure GlmEnv where
  view : Mat4
  proj : Mat4
  eyeBits : Vec3Bits
  lightPosBits : Vec3Bits
  defaultAmbient : Vec3Bits
  defaultDiffuse : Vec3Bits
  defaultSpecular : Vec3Bits
  defaultShininess : Nat
  deriving DecidableEq, Repr

/-- Shallow embedding of `update_renderable_uniform_buffer`
(src/src/vulkan_renderer.c lines 2190-2255): when the uniform buffer is
mapped, assemble the UniformBufferObject — the model slot is a memcpy of
the renderable's in-memory model matrix, material slots come from the
renderable's material or the defaults — and memcpy it into the mapped
region.  When the mapping is absent the call returns untouched. -/
def update_renderable_uniform_buffer (env : GlmEnv) (r : poc_renderable) :
    poc_renderable :=
  if r.uniform_mapped then
    let ubo : UniformBufferObject :=
      { model := r.model_matrix
        view := env.view
        proj := env.proj
        ambient_color := if r.has_material then r.material.ambient else env.defaultAmbient
        diffuse_color := if r.has_material then r.material.diffuse else env.defaultDiffuse
        specular_color := if r.has_material then r.material.specular else env.defaultSpecular
        shininess := if r.has_material then r.material.shininess else env.defaultShininess
        light_pos := env.lightPosBits
        view_pos := env.eyeBits }
    { r with uniform_contents := some ubo }
  else r

/-! ### Bookkeeping lemmas for the allocation and collection model -/

/-- Freeing an empty handle list is the identity. -/
theorem freeHandles_nil (l : List Nat) : freeHandles l [] = l := by
  simp [freeHandles]

/-- Freeing distributes over appended live lists. -/
theorem freeHandles_append (a b hs : List Nat) :
    freeHandles (a ++ b) hs = freeHandles a hs ++ freeHandles b hs := by
  simp [freeHandles]

/-- Freeing handles none of which are live is the identity. -/
theorem freeHandles_of_disjoint (l hs : List Nat) (h : ∀ x ∈ l, x ∉ hs) :
    freeHandles l hs = l := by
  unfold freeHandles
  apply List.filter_eq_self.mpr
  intro a ha
  simp [h a ha]

/-- Freeing every live handle empties the list. -/
theorem freeHandles_of_subset (l hs : List Nat) (h : ∀ x ∈ l, x ∈ hs) :
    freeHandles l hs = [] := by
  unfold freeHandles
  apply List.filter_eq_nil_iff.mpr
  intro a ha
  simp [h a ha]

/-- Survivors of a free were live before it. -/
theorem mem_of_mem_freeHandles {l hs : List Nat} {a : Nat}
    (h : a ∈ freeHandles l hs) : a ∈ l := by
  simp only [freeHandles, List.mem_filter] at h
  exact h.1

/-- Releasing the transient staging pair out of the staging/device
quadruple keeps exactly the device-local pair. -/
theorem freeHandles_staging_pair (a b c d : Nat) (hc : c ∉ [a, b]) (hd : d ∉ [a, b]) :
    freeHandles [a, b, c, d] [a, b] = [c, d] := by
  simp only [List.mem_cons, List.not_mem_nil, or_false, not_or] at hc hd
  simp [freeHandles, List.filter_cons, hc.1, hc.2, hd.1, hd.2]

/-- Finding by pointer identity in a split collection whose left part
misses the identity returns the split element. -/
theorem find?_renderable_split (pre post : List poc_renderable)
    (r : poc_renderable) (rid : Nat)
    (hpre : ∀ x ∈ pre, x.id ≠ rid) (hr : r.id = rid) :
    (pre ++ r :: post).find? (fun x => x.id == rid) = some r := by
  induction pre with
  | nil => simp [List.find?, hr]
  | cons a t ih =>
    have ha : (a.id == rid) = false := by
      simp [hpre a (List.mem_cons_self a t)]
    have ht := ih (fun x hx => hpre x (List.mem_cons_of_mem a hx))
    simpa [List.find?, ha] using ht

/-- Erasing by pointer identity in such a split removes the split
element and shifts the rest down, preserving their order. -/
theorem eraseP_renderable_split (pre post : List poc_renderable)
    (r : poc_renderable) (rid : Nat)
    (hpre : ∀ x ∈ pre, x.id ≠ rid) (hr : r.id = rid) :
    (pre ++ r :: post).eraseP (fun x => x.id == rid) = pre ++ post := by
  induction pre with
  | nil => simp [List.eraseP_cons, hr]
  | cons a t ih =>
    have ha : (a.id == rid) = false := by
      simp [hpre a (List.mem_cons_self a t)]
    have ht := ih (fun x hx => hpre x (List.mem_cons_of_mem a hx))
    simp [List.eraseP_cons, ha, ht]

/-- Updating through a pointer identity absent from the collection is the
identity on the collection. -/
theorem modifyRenderable_of_absent (rid : Nat) (f : poc_renderable → poc_renderable) :
    ∀ l : List poc_renderable, (∀ x ∈ l, x.id ≠ rid) → modifyRenderable l rid f = l
  | [], _ => rfl
  | a :: t, h => by
    have ha : (a.id == rid) = false := by
      simp [h a (List.mem_cons_self a t)]
    have ht := modifyRenderable_of_absent rid f t
      (fun x hx => h x (List.mem_cons_of_mem a hx))
    simp only [modifyRenderable, List.map_cons, ha, Bool.false_eq_true, if_false]
    simp only [modifyRenderable] at ht
    rw [ht]

/-- Updating through the pointer with identity `rid` rewrites exactly the
split element when the identity occurs nowhere else. -/
theorem modifyRenderable_split (pre post : List poc_renderable)
    (r : poc_renderable) (rid : Nat) (f : poc_renderable → poc_renderable)
    (hpre : ∀ x ∈ pre, x.id ≠ rid) (hr : r.id = rid)
    (hpost : ∀ x ∈ post, x.id ≠ rid) :
    modifyRenderable (pre ++ r :: post) rid f = pre ++ f r :: post := by
  have h1 := modifyRenderable_of_absent rid f pre hpre
  have h2 := modifyRenderable_of_absent rid f post hpost
  simp only [modifyRenderable, List.map_append, List.map_cons] at h1 h2 ⊢
  rw [h1, h2, hr]
  simp

/-- Specification of `poc_context_destroy_renderable` when the record is
in the collection: the record's six handles are released and the record
removed, order of the rest preserved. -/
theorem destroy_split (s : RenderContextState) (pre post : List poc_renderable)
    (r : poc_renderable)
    (hsplit : s.renderables = pre ++ r :: post)
    (hpre : ∀ x ∈ pre, x.id ≠ r.id) :
    poc_context_destroy_renderable s r.id =
      { s with renderables := pre ++ post
               live := freeHandles s.live (renderableHandles r) } := by
  have hf : s.renderables.find? (fun x => x.id == r.id) = some r := by
    rw [hsplit]; exact find?_renderable_split pre post r r.id hpre rfl
  have he : s.renderables.eraseP (fun x => x.id == r.id) = pre ++ post := by
    rw [hsplit]; exact eraseP_renderable_split pre post r r.id hpre rfl
  unfold poc_context_destroy_renderable
  simp only [hf, he]

/-- Specification of a successful `create_renderable_buffers` call: with
`n = s.next_handle`, the prior six handles are released, the device-local
vertex/index pairs land at n+2, n+3, n+6, n+7, the mapped uniform pair at
n+8, n+9 (staging pairs n, n+1 and n+4, n+5 are transient), the keyed
record is replaced by `loadedRenderable`, and the event list shows the
releases preceding the fresh allocations. -/
theorem create_renderable_buffers_split (s : RenderContextState)
    (pre post : List poc_renderable) (r : poc_renderable) (rid : Nat)
    (vertices : List poc_vertex) (indices : List Nat)
    (hsplit : s.renderables = pre ++ r :: post)
    (hpre : ∀ x ∈ pre, x.id ≠ rid) (hr : r.id = rid)
    (hpost : ∀ x ∈ post, x.id ≠ rid)
    (hv : vertices ≠ []) (hi : indices ≠ [])
    (hlive : ∀ h ∈ s.live, h < s.next_handle) :
    create_renderable_buffers s rid vertices indices =
      (.success,
       { s with
           live := freeHandles s.live (renderableHandles r) ++
             [s.next_handle + 2, s.next_handle + 3, s.next_handle + 6,
              s.next_handle + 7, s.next_handle + 8, s.next_handle + 9]
           next_handle := s.next_handle + 11
           renderables :=
             pre ++ loadedRenderable s.next_handle vertices indices r :: post },
       (renderableHandles r).map .freeHandle ++
         [s.next_handle, s.next_handle + 1, s.next_handle + 2,
          s.next_handle + 3].map .alloc ++
         [s.next_handle, s.next_handle + 1].map .freeHandle ++
         [s.next_handle + 4, s.next_handle + 5, s.next_handle + 6,
          s.next_handle + 7].map .alloc ++
         [s.next_handle + 4, s.next_handle + 5].map .freeHandle ++
         [s.next_handle + 8, s.next_handle + 9, s.next_handle + 10].map .alloc) := by
  have hf : s.renderables.find? (fun x => x.id == rid) = some r := by
    rw [hsplit]; exact find?_renderable_split pre post r rid hpre hr
  have hmod : modifyRenderable s.renderables rid
      (loadedRenderable s.next_handle vertices indices) =
      pre ++ loadedRenderable s.next_handle vertices indices r :: post := by
    rw [hsplit]; exact modifyRenderable_split pre post r rid _ hpre hr hpost
  have hd1 : ∀ x ∈ freeHandles s.live (renderableHandles r),
      x ∉ [s.next_handle, s.next_handle + 1] := by
    intro x hx
    have := hlive x (mem_of_mem_freeHandles hx)
    simp only [List.mem_cons, List.not_mem_nil, or_false]
    omega
  have h1 : freeHandles (freeHandles s.live (renderableHandles r) ++
      [s.next_handle, s.next_handle + 1, s.next_handle + 2, s.next_handle + 3])
      [s.next_handle, s.next_handle + 1] =
      freeHandles s.live (renderableHandles r) ++
        [s.next_handle + 2, s.next_handle + 3] := by
    rw [freeHandles_append, freeHandles_of_disjoint _ _ hd1,
        freeHandles_staging_pair _ _ _ _ (by simp) (by simp)]
  have hd2 : ∀ x ∈ freeHandles s.live (renderableHandles r) ++
      [s.next_handle + 2, s.next_handle + 3],
      x ∉ [s.next_handle + 4, s.next_handle + 5] := by
    intro x hx
    rcases List.mem_append.mp hx with hx | hx
    · have := hlive x (mem_of_mem_freeHandles hx)
      simp only [List.mem_cons, List.not_mem_nil, or_false]
      omega
    · simp only [List.mem_cons, List.not_mem_nil, or_false] at hx ⊢
      omega
  have h2 : freeHandles ((freeHandles s.live (renderableHandles r) ++
      [s.next_handle + 2, s.next_handle + 3]) ++
      [s.next_handle + 4, s.next_handle + 5, s.next_handle + 6, s.next_handle + 7])
      [s.next_handle + 4, s.next_handle + 5] =
      (freeHandles s.live (renderableHandles r) ++
        [s.next_handle + 2, s.next_handle + 3]) ++
        [s.next_handle + 6, s.next_handle + 7] := by
    rw [freeHandles_append, freeHandles_of_disjoint _ _ hd2,
        freeHandles_staging_pair _ _ _ _ (by simp) (by simp)]
  unfold create_renderable_buffers
  rw [if_neg (by simp [hv, hi])]
  simp only [hf, h1, h2, hmod]
  simp [List.append_assoc]

/-! ### C8: set_transform defers GPU writes and is copied bit-for-bit -/

/-- C8: `poc_renderable_set_transform` rewrites only the in-memory model
matrix — the record is otherwise identical, in particular the mapped
uniform region (the only GPU-visible memory the renderable owns) is
untouched — and the model slot written by the next
`update_renderable_uniform_buffer` equals M bit-for-bit. -/
theorem c8_set_transform_bit_exact (env : GlmEnv) (r : poc_renderable) (M : Mat4)
    (h : r.uniform_mapped = true) :
    poc_renderable_set_transform r M = { r with model_matrix := M } ∧
    (poc_renderable_set_transform r M).uniform_contents = r.uniform_contents ∧
    (update_renderable_uniform_buffer env
        (poc_renderable_set_transform r M)).uniform_contents.map
      (fun u => u.model) = some M := by
  refine ⟨rfl, rfl, ?_⟩
  simp [update_renderable_uniform_buffer, poc_renderable_set_transform, h]

/-- Sample material for concrete witnesses. -/
def sampleMaterial : poc_material := ⟨"mat", (1, 2, 3), (4, 5, 6), (7, 8, 9), 10, 11⟩

/-- Sample renderable with a mapped uniform buffer, for witnesses. -/
def sampleRenderable : poc_renderable :=
  { id := 0
    vertex_buffer := some 2, vertex_buffer_memory := some 3
    index_buffer := some 6, index_buffer_memory := some 7
    vertex_count := 3, index_count := 3
    vertex_data := [⟨(1, 1, 1), (0, 0, 1), (0, 0)⟩]
    index_data := [0, 1, 2]
    uniform_buffer := some 8, uniform_buffer_memory := some 9
    uniform_mapped := true, uniform_contents := none
    descriptor_set := some 10
    material := sampleMaterial
    has_material := true
    model_matrix := identityMat4
    name := "sample" }

/-- Sample cglm computation results for concrete witnesses. -/
def sampleGlmEnv : GlmEnv :=
  ⟨identityMat4, identityMat4, (0, 0, 0), (20, 21, 22),
   (30, 31, 32), (33, 34, 35), (36, 37, 38), 39⟩

/-- Sample transform matrix for concrete witnesses. -/
def sampleMat : Mat4 := [[1, 2, 3, 4], [5, 6, 7, 8], [9, 10, 11, 12], [13, 14, 15, 16]]

/-- Witness for C8 at a concrete renderable with a mapped uniform buffer. -/
theorem c8_set_transform_bit_exact_witness :
    sampleRenderable.uniform_mapped = true ∧
    (poc_renderable_set_transform sampleRenderable sampleMat =
      { sampleRenderable with model_matrix := sampleMat } ∧
     (poc_renderable_set_transform sampleRenderable sampleMat).uniform_contents =
      sampleRenderable.uniform_contents ∧
     (update_renderable_uniform_buffer sampleGlmEnv
        (poc_renderable_set_transform sampleRenderable sampleMat)).uniform_contents.map
      (fun u => u.model) = some sampleMat) :=
  ⟨rfl, c8_set_transform_bit_exact sampleGlmEnv sampleRenderable sampleMat rfl⟩

/-! ### C6: create_renderable / destroy_renderable round-trip -/

/-- Conclusion of claim C6 at given inputs: after
`poc_context_create_renderable` followed by
`poc_context_destroy_renderable` on the renderable it returned, the
collection is back to its original contents (same length, same relative
order) and the live allocation list is back to the original — both when
nothing was loaded in between and when a mesh was loaded into the new
renderable in between (the vertex-, index- and uniform-buffer
allocations made for it are all released). -/
def c6Prop (s : RenderContextState) (name : Option String)
    (vertices : List poc_vertex) (indices : List Nat) : Prop :=
  ((poc_context_destroy_renderable (poc_context_create_renderable s name).2
      (poc_context_create_renderable s name).1.id).renderables = s.renderables ∧
   (poc_context_destroy_renderable (poc_context_create_renderable s name).2
      (poc_context_create_renderable s name).1.id).live = s.live) ∧
  (vertices ≠ [] → indices ≠ [] →
    (create_renderable_buffers (poc_context_create_renderable s name).2
        (poc_context_create_renderable s name).1.id vertices indices).1 = .success ∧
    (poc_context_destroy_renderable
        (create_renderable_buffers (poc_context_create_renderable s name).2
          (poc_context_create_renderable s name).1.id vertices indices).2.1
        (poc_context_create_renderable s name).1.id).renderables = s.renderables ∧
    (poc_context_destroy_renderable
        (create_renderable_buffers (poc_context_create_renderable s name).2
          (poc_context_create_renderable s name).1.id vertices indices).2.1
        (poc_context_create_renderable s name).1.id).live = s.live)

/-- C6: create-then-destroy restores the renderable collection exactly
and leaks no allocation, under the context invariants that existing
pointer identities precede `next_id` and live handles precede
`next_handle`. -/
theorem c6_create_destroy_roundtrip (s : RenderContextState) (name : Option String)
    (vertices : List poc_vertex) (indices : List Nat)
    (hids : ∀ r ∈ s.renderables, r.id < s.next_id)
    (hlive : ∀ h ∈ s.live, h < s.next_handle) :
    c6Prop s name vertices indices := by
  have hpre : ∀ x ∈ s.renderables, x.id ≠ (poc_context_create_renderable s name).1.id :=
    fun x hx => Nat.ne_of_lt (hids x hx)
  have hrh : renderableHandles (poc_context_create_renderable s name).1 = [] := rfl
  have hd0 : poc_context_destroy_renderable (poc_context_create_renderable s name).2
      (poc_context_create_renderable s name).1.id =
      { (poc_context_create_renderable s name).2 with
          renderables := s.renderables ++ []
          live := freeHandles (poc_context_create_renderable s name).2.live
            (renderableHandles (poc_context_create_renderable s name).1) } :=
    destroy_split _ s.renderables [] _ rfl hpre
  constructor
  · rw [hd0]
    exact ⟨by simp, by rw [hrh, freeHandles_nil]; rfl⟩
  · intro hv hi
    have hlive1 : ∀ h ∈ (poc_context_create_renderable s name).2.live,
        h < (poc_context_create_renderable s name).2.next_handle := hlive
    have hlb : create_renderable_buffers (poc_context_create_renderable s name).2
        (poc_context_create_renderable s name).1.id vertices indices =
        (.success,
         { (poc_context_create_renderable s name).2 with
             live := freeHandles (poc_context_create_renderable s name).2.live
                 (renderableHandles (poc_context_create_renderable s name).1) ++
               [s.next_handle + 2, s.next_handle + 3, s.next_handle + 6,
                s.next_handle + 7, s.next_handle + 8, s.next_handle + 9]
             next_handle := s.next_handle + 11
             renderables := s.renderables ++
               loadedRenderable s.next_handle vertices indices
                 (poc_context_create_renderable s name).1 :: [] },
         (renderableHandles (poc_context_create_renderable s name).1).map .freeHandle ++
           [s.next_handle, s.next_handle + 1, s.next_handle + 2,
            s.next_handle + 3].map .alloc ++
           [s.next_handle, s.next_handle + 1].map .freeHandle ++
           [s.next_handle + 4, s.next_handle + 5, s.next_handle + 6,
            s.next_handle + 7].map .alloc ++
           [s.next_handle + 4, s.next_handle + 5].map .freeHandle ++
           [s.next_handle + 8, s.next_handle + 9, s.next_handle + 10].map .alloc) :=
      create_renderable_buffers_split _ s.renderables [] _ _ vertices indices rfl
        hpre rfl (by simp) hv hi hlive1
    refine ⟨by rw [hlb], ?_, ?_⟩
    · have hd1 : poc_context_destroy_renderable
          (create_renderable_buffers (poc_context_create_renderable s name).2
            (poc_context_create_renderable s name).1.id vertices indices).2.1
          (poc_context_create_renderable s name).1.id =
          { (create_renderable_buffers (poc_context_create_renderable s name).2
              (poc_context_create_renderable s name).1.id vertices indices).2.1 with
              renderables := s.renderables ++ []
              live := freeHandles
                (create_renderable_buffers (poc_context_create_renderable s name).2
                  (poc_context_create_renderable s name).1.id vertices indices).2.1.live
                (renderableHandles (loadedRenderable s.next_handle vertices indices
                  (poc_context_create_renderable s name).1)) } :=
        destroy_split _ s.renderables []
          (loadedRenderable s.next_handle vertices indices
            (poc_context_create_renderable s name).1)
          (by rw [hlb]) hpre
      rw [hd1]
      simp
    · have hd1 : poc_context_destroy_renderable
          (create_renderable_buffers (poc_context_create_renderable s name).2
            (poc_context_create_renderable s name).1.id vertices indices).2.1
          (poc_context_create_renderable s name).1.id =
          { (create_renderable_buffers (poc_context_create_renderable s name).2
              (poc_context_create_renderable s name).1.id vertices indices).2.1 with
              renderables := s.renderables ++ []
              live := freeHandles
                (create_renderable_buffers (poc_context_create_renderable s name).2
                  (poc_context_create_renderable s name).1.id vertices indices).2.1.live
                (renderableHandles (loadedRenderable s.next_handle vertices indices
                  (poc_context_create_renderable s name).1)) } :=
        destroy_split _ s.renderables []
          (loadedRenderable s.next_handle vertices indices
            (poc_context_create_renderable s name).1)
          (by rw [hlb]) hpre
      rw [hd1]
      have hsix : renderableHandles (loadedRenderable s.next_handle vertices indices
          (poc_context_create_renderable s name).1) =
          [s.next_handle + 2, s.next_handle + 3, s.next_handle + 6,
           s.next_handle + 7, s.next_handle + 8, s.next_handle + 9] := rfl
      have hlive2 : (create_renderable_buffers (poc_context_create_renderable s name).2
          (poc_context_create_renderable s name).1.id vertices indices).2.1.live =
          freeHandles (poc_context_create_renderable s name).2.live
              (renderableHandles (poc_context_create_renderable s name).1) ++
            [s.next_handle + 2, s.next_handle + 3, s.next_handle + 6,
             s.next_handle + 7, s.next_handle + 8, s.next_handle + 9] := by
        rw [hlb]
      rw [hsix, hlive2, hrh, freeHandles_nil, freeHandles_append]
      have hdisj : freeHandles (poc_context_create_renderable s name).2.live
          [s.next_handle + 2, s.next_handle + 3, s.next_handle + 6,
           s.next_handle + 7, s.next_handle + 8, s.next_handle + 9] =
          (poc_context_create_renderable s name).2.live := by
        apply freeHandles_of_disjoint
        intro x hx
        have hx2 : x ∈ s.live := hx
        have := hlive x hx2
        simp only [List.mem_cons, List.not_mem_nil, or_false]
        omega
      rw [hdisj, freeHandles_of_subset _ _ (fun x hx => hx)]
      simp
      rfl

/-- Witness for C6 at a concrete empty context, named renderable, and a
one-triangle mesh. -/
theorem c6_create_destroy_roundtrip_witness :
    c6Prop ⟨[], 8, 0, 0, []⟩ (some "cube")
      [⟨(1, 1, 1), (0, 0, 1), (0, 0)⟩, ⟨(2, 2, 2), (0, 0, 1), (0, 1)⟩,
       ⟨(3, 3, 3), (0, 0, 1), (1, 0)⟩] [0, 1, 2] := by
  apply c6_create_destroy_roundtrip
  · intro r hr
    simp at hr
  · intro h hh
    simp at hh

/-! ### C7: reloading a mesh replaces, never accumulates -/

/-- Conclusion of claim C7 at given inputs, for the renderable with
pointer identity `rid` whose record before the loads is `r0`: loading
mesh A and then mesh B through the shared buffer-(re)creation path
(`create_renderable_buffers`, reached from `poc_renderable_load_model`
and the header-declared load_mesh entry point) succeeds both times;
afterwards the record holds exactly B's vertex/index data and counts and
exactly one buffer set (the six handles of the second load); the live
allocation list holds exactly that one set beyond the handles that were
live before (A's set is gone); and the second load's event list frees
A's six buffers before any fresh allocation. -/
def c7Prop (s : RenderContextState) (rid : Nat) (r0 : poc_renderable)
    (vA : List poc_vertex) (iA : List Nat) (vB : List poc_vertex) (iB : List Nat) : Prop :=
  (create_renderable_buffers s rid vA iA).1 = .success ∧
  (create_renderable_buffers
      (create_renderable_buffers s rid vA iA).2.1 rid vB iB).1 = .success ∧
  (∃ rB,
    (create_renderable_buffers
        (create_renderable_buffers s rid vA iA).2.1 rid vB iB).2.1.renderables.find?
      (fun x => x.id == rid) = some rB ∧
    rB.vertex_data = vB ∧ rB.index_data = iB ∧
    rB.vertex_count = vB.length ∧ rB.index_count = iB.length ∧
    renderableHandles rB =
      [s.next_handle + 11 + 2, s.next_handle + 11 + 3, s.next_handle + 11 + 6,
       s.next_handle + 11 + 7, s.next_handle + 11 + 8, s.next_handle + 11 + 9]) ∧
  (create_renderable_buffers
      (create_renderable_buffers s rid vA iA).2.1 rid vB iB).2.1.live =
    freeHandles s.live (renderableHandles r0) ++
      [s.next_handle + 11 + 2, s.next_handle + 11 + 3, s.next_handle + 11 + 6,
       s.next_handle + 11 + 7, s.next_handle + 11 + 8, s.next_handle + 11 + 9] ∧
  (create_renderable_buffers
      (create_renderable_buffers s rid vA iA).2.1 rid vB iB).2.2 =
    [s.next_handle + 2, s.next_handle + 3, s.next_handle + 6, s.next_handle + 7,
     s.next_handle + 8, s.next_handle + 9].map .freeHandle ++
    [s.next_handle + 11, s.next_handle + 11 + 1, s.next_handle + 11 + 2,
     s.next_handle + 11 + 3].map .alloc ++
    [s.next_handle + 11, s.next_handle + 11 + 1].map .freeHandle ++
    [s.next_handle + 11 + 4, s.next_handle + 11 + 5, s.next_handle + 11 + 6,
     s.next_handle + 11 + 7].map .alloc ++
    [s.next_handle + 11 + 4, s.next_handle + 11 + 5].map .freeHandle ++
    [s.next_handle + 11 + 8, s.next_handle + 11 + 9, s.next_handle + 11 + 10].map .alloc

/-- C7: reloading mesh data wholesale replaces the renderable's buffers:
the prior vertex/index/uniform set is released before fresh buffers are
created, and after loading A then B exactly B's data, counts and one
buffer set remain. -/
theorem c7_reload_no_accumulation (s : RenderContextState) (rid : Nat)
    (pre post : List poc_renderable) (r0 : poc_renderable)
    (vA : List poc_vertex) (iA : List Nat) (vB : List poc_vertex) (iB : List Nat)
    (hsplit : s.renderables = pre ++ r0 :: post)
    (hr0 : r0.id = rid)
    (hpre : ∀ x ∈ pre, x.id ≠ rid) (hpost : ∀ x ∈ post, x.id ≠ rid)
    (hlive : ∀ h ∈ s.live, h < s.next_handle)
    (hvA : vA ≠ []) (hiA : iA ≠ []) (hvB : vB ≠ []) (hiB : iB ≠ []) :
    c7Prop s rid r0 vA iA vB iB := by
  have hlbA := create_renderable_buffers_split s pre post r0 rid vA iA hsplit
    hpre hr0 hpost hvA hiA hlive
  have hsixA : renderableHandles (loadedRenderable s.next_handle vA iA r0) =
      [s.next_handle + 2, s.next_handle + 3, s.next_handle + 6, s.next_handle + 7,
       s.next_handle + 8, s.next_handle + 9] := rfl
  have hliveS1 : ∀ h ∈ freeHandles s.live (renderableHandles r0) ++
      [s.next_handle + 2, s.next_handle + 3, s.next_handle + 6, s.next_handle + 7,
       s.next_handle + 8, s.next_handle + 9], h < s.next_handle + 11 := by
    intro h hh
    rcases List.mem_append.mp hh with hh | hh
    · have := hlive h (mem_of_mem_freeHandles hh)
      omega
    · simp only [List.mem_cons, List.not_mem_nil, or_false] at hh
      omega
  have hlbB := create_renderable_buffers_split
    { s with
        live := freeHandles s.live (renderableHandles r0) ++
          [s.next_handle + 2, s.next_handle + 3, s.next_handle + 6,
           s.next_handle + 7, s.next_handle + 8, s.next_handle + 9]
        next_handle := s.next_handle + 11
        renderables := pre ++ loadedRenderable s.next_handle vA iA r0 :: post }
    pre post (loadedRenderable s.next_handle vA iA r0) rid vB iB rfl
    hpre hr0 hpost hvB hiB hliveS1
  have hAfree : freeHandles (freeHandles s.live (renderableHandles r0) ++
      [s.next_handle + 2, s.next_handle + 3, s.next_handle + 6, s.next_handle + 7,
       s.next_handle + 8, s.next_handle + 9])
      (renderableHandles (loadedRenderable s.next_handle vA iA r0)) =
      freeHandles s.live (renderableHandles r0) := by
    rw [hsixA, freeHandles_append, freeHandles_of_subset _ _ (fun x hx => hx),
        freeHandles_of_disjoint]
    · simp
    · intro x hx
      have := hlive x (mem_of_mem_freeHandles hx)
      simp only [List.mem_cons, List.not_mem_nil, or_false]
      omega
  refine ⟨by rw [hlbA], ?_, ?_, ?_, ?_⟩
  · rw [hlbA]
    show (create_renderable_buffers _ rid vB iB).1 = poc_result.success
    rw [hlbB]
  · refine ⟨loadedRenderable (s.next_handle + 11) vB iB
      (loadedRenderable s.next_handle vA iA r0), ?_, rfl, rfl, rfl, rfl, rfl⟩
    rw [hlbA]
    show (create_renderable_buffers _ rid vB iB).2.1.renderables.find? _ = _
    rw [hlbB]
    exact find?_renderable_split pre post _ rid hpre hr0
  · rw [hlbA]
    show (create_renderable_buffers _ rid vB iB).2.1.live = _
    rw [hlbB]
    show freeHandles _ _ ++ _ = _
    rw [hAfree]
  · rw [hlbA]
    show (create_renderable_buffers _ rid vB iB).2.2 = _
    rw [hlbB]
    rw [hsixA]

/-- Fresh (never loaded) variant of the sample renderable, for
witnesses. -/
def sampleFreshRenderable : poc_renderable :=
  { sampleRenderable with
      vertex_buffer := none
      vertex_buffer_memory := none
      index_buffer := none
      index_buffer_memory := none
      uniform_buffer := none
      uniform_buffer_memory := none
      uniform_mapped := false
      descriptor_set := none }

/-- Witness for C7 at a concrete one-renderable context and two concrete
meshes. -/
theorem c7_reload_no_accumulation_witness :
    c7Prop ⟨[sampleFreshRenderable], 8, 1, 0, []⟩ 0 sampleFreshRenderable
      [⟨(1, 1, 1), (0, 0, 1), (0, 0)⟩] [0]
      [⟨(2, 2, 2), (0, 1, 0), (1, 1)⟩, ⟨(3, 3, 3), (0, 1, 0), (1, 0)⟩] [0, 1, 0] := by
  refine c7_reload_no_accumulation _ _ [] [] _ _ _ _ _ rfl rfl ?_ ?_ ?_ ?_ ?_ ?_ ?_
  · intro x hx
    simp at hx
  · intro x hx
    simp at hx
  · intro h hh
    simp at hh
  · simp
  · simp
  · simp
  · simp

/-! ### C10: destroying an unknown renderable is a defensive no-op -/

/-- C10: `poc_context_destroy_renderable` with a non-null renderable whose
pointer identity is not in the context's collection changes nothing — no
record is removed and no allocation is released (the warning-only early
return at lines 2720-2723). -/
theorem c10_destroy_absent_noop (s : RenderContextState) (rid : Nat)
    (h : ∀ r ∈ s.renderables, r.id ≠ rid) :
    poc_context_destroy_renderable s rid = s := by
  unfold poc_context_destroy_renderable
  have hf : s.renderables.find? (fun r => r.id == rid) = none := by
    apply List.find?_eq_none.mpr
    intro r hr
    simp [h r hr]
  rw [hf]

/-- Witness for C10: a context holding only `sampleRenderable` (id 0) is
unchanged by destroying pointer identity 1. -/
theorem c10_destroy_absent_noop_witness :
    poc_context_destroy_renderable ⟨[sampleRenderable], 8, 1, 11, [2, 3, 6, 7, 8, 9]⟩ 1 =
      ⟨[sampleRenderable], 8, 1, 11, [2, 3, 6, 7, 8, 9]⟩ := by
  apply c10_destroy_absent_noop
  intro r hr
  simp only [List.mem_singleton] at hr
  subst hr
  decide

/-! ## Swapchain extent selection (src/src/vulkan_renderer.c) and C4 -/

/-- Vulkan 2D extent. -/
structure VkExtent2D where
  width : Nat
  height : Nat
  deriving DecidableEq, Repr

/-- The surface-capability fields read by `choose_swap_extent` and the
image-count selection of `create_swapchain_internal`
(`maxImageCount = 0` means unbounded). -/
structure VkSurfaceCapabilities where
  currentExtent : VkExtent2D
  minImageExtent : VkExtent2D
  maxImageExtent : VkExtent2D
  minImageCount : Nat
  maxImageCount : Nat
  deriving DecidableEq, Repr

/-- UINT32_MAX, the sentinel Vulkan uses in `currentExtent.width` for
"extent determined by the swapchain". -/
def UINT32_MAX : Nat := 4294967295

/-- The two-step clamp applied per dimension at lines 1023-1031: raise to
the minimum, then lower to the maximum. -/
def clampDim (v lo hi : Nat) : Nat :=
  let v1 := if v < lo then lo else v
  if v1 > hi then hi else v1

/-- Shallow embedding of `choose_swap_extent` (src/src/vulkan_renderer.c
lines 1011-1035): when the surface defines a current extent
(width ≠ UINT32_MAX) it is returned as is; only otherwise is the window
framebuffer size clamped to the surface bounds. -/
def choose_swap_extent (caps : VkSurfaceCapabilities) (fbWidth fbHeight : Nat) :
    VkExtent2D :=
  if caps.currentExtent.width ≠ UINT32_MAX then caps.currentExtent
  else
    { width := clampDim fbWidth caps.minImageExtent.width caps.maxImageExtent.width
      height := clampDim fbHeight caps.minImageExtent.height caps.maxImageExtent.height }

/-- Swapchain parameters stored into the context by
`create_swapchain_internal` (extent at line 1081, image count chosen at
lines 1044-1047). -/
structure SwapchainConfig where
  extent : VkExtent2D
  image_count : Nat
  deriving DecidableEq, Repr

/-- Extent and image-count selection of `create_swapchain_internal`
(src/src/vulkan_renderer.c lines 1037-1081): extent from
`choose_swap_extent`; image count `minImageCount + 1` capped at
`maxImageCount` when that bound is nonzero. -/
def create_swapchain_config (caps : VkSurfaceCapabilities) (fbWidth fbHeight : Nat) :
    SwapchainConfig :=
  let extent := choose_swap_extent caps fbWidth fbHeight
  let ic := caps.minImageCount + 1
  { extent := extent
    image_count := if caps.maxImageCount > 0 ∧ ic > caps.maxImageCount
                   then caps.maxImageCount else ic }

/-- Counterexample to C4 as stated: the resulting swapchain extent does
NOT always equal the window framebuffer size clamped to the surface
bounds — when the surface defines a current extent the code takes that
extent and ignores the framebuffer size.  Concretely, with
currentExtent 100x100, bounds [1,4000]^2 and framebuffer 800x600 the
stored extent is 100x100 while the clamped framebuffer size is
800x600. -/
theorem c4_extent_counterexample :
    ¬ (∀ (caps : VkSurfaceCapabilities) (fbW fbH : Nat),
        (create_swapchain_config caps fbW fbH).extent =
          ⟨clampDim fbW caps.minImageExtent.width caps.maxImageExtent.width,
           clampDim fbH caps.minImageExtent.height caps.maxImageExtent.height⟩) := by
  intro h
  have h100 := h ⟨⟨100, 100⟩, ⟨1, 1⟩, ⟨4000, 4000⟩, 2, 0⟩ 800 600
  exact absurd h100 (by decide)

/-- C4 amended: for every successful create_context the stored swapchain
extent is the surface's current extent when the surface defines one
(width ≠ UINT32_MAX), and otherwise the window framebuffer size at
creation time clamped to the surface's minimum and maximum image extent
bounds. -/
theorem c4_extent_amended (caps : VkSurfaceCapabilities) (fbW fbH : Nat) :
    (caps.currentExtent.width ≠ UINT32_MAX →
      (create_swapchain_config caps fbW fbH).extent = caps.currentExtent) ∧
    (caps.currentExtent.width = UINT32_MAX →
      (create_swapchain_config caps fbW fbH).extent =
        ⟨clampDim fbW caps.minImageExtent.width caps.maxImageExtent.width,
         clampDim fbH caps.minImageExtent.height caps.maxImageExtent.height⟩) := by
  constructor <;> intro h <;>
    simp [create_swapchain_config, choose_swap_extent, h]

/-- Witness for the amended C4, on both sides of the sentinel. -/
theorem c4_extent_amended_witness :
    (create_swapchain_config ⟨⟨100, 100⟩, ⟨1, 1⟩, ⟨4000, 4000⟩, 2, 0⟩ 800 600).extent =
      ⟨100, 100⟩ ∧
    (create_swapchain_config ⟨⟨4294967295, 100⟩, ⟨1, 1⟩, ⟨700, 4000⟩, 2, 0⟩ 800 600).extent =
      ⟨700, 600⟩ := by
  constructor
  · exact (c4_extent_amended ⟨⟨100, 100⟩, ⟨1, 1⟩, ⟨4000, 4000⟩, 2, 0⟩ 800 600).1
      (by decide)
  · have h := (c4_extent_amended ⟨⟨4294967295, 100⟩, ⟨1, 1⟩, ⟨700, 4000⟩, 2, 0⟩ 800 600).2
      rfl
    rw [h]
    decide

/-! ## Context creation (vulkan_context_create) and C1 -/

/-- Window-system backend reported by podi_get_backend. -/
inductive podi_backend_type where
  | x11
  | wayland
  | other
  deriving DecidableEq, Repr

/-- Outcome of a C call that may terminate the whole process: either the
function returns a value, or the process exits with a status code. -/
inductive ProcResult (α : Type) where
  | ret (a : α)
  | exited (code : Nat)
  deriving DecidableEq, Repr

/-- Outcomes of the window-system and Vulkan calls made by
`create_surface`. -/
structure SurfaceEnv where
  backend : podi_backend_type
  handles_ok : Bool
  vk_create_ok : Bool
  deriving DecidableEq, Repr

/-- Shallow embedding of `create_surface` (src/src/vulkan_renderer.c
lines 466-516): on X11 or Wayland, failure to obtain the window handles
or of vkCreate*SurfaceKHR prints "FATAL ERROR" and calls exit(1); an
unsupported backend also calls exit(1); on success the (non-null)
surface handle is returned.  No path returns VK_NULL_HANDLE. -/
def create_surface (env : SurfaceEnv) : ProcResult Nat :=
  match env.backend with
  | .x11 =>
    if env.handles_ok = false then .exited 1
    else if env.vk_create_ok = false then .exited 1
    else .ret 1
  | .wayland =>
    if env.handles_ok = false then .exited 1
    else if env.vk_create_ok = false then .exited 1
    else .ret 1
  | .other => .exited 1

/-- Outcomes of the setup steps performed by `vulkan_context_create`,
in program order. -/
structure CreateContextEnv where
  window_nonnull : Bool
  instance_ok : Bool
  surface : SurfaceEnv
  select_device_ok : Bool
  create_device_ok : Bool
  malloc_ctx_ok : Bool
  malloc_renderables_ok : Bool
  swapchain_ok : Bool
  command_pool_ok : Bool
  command_buffers_ok : Bool
  sync_objects_ok : Bool
  render_pass_ok : Bool
  pipeline_ok : Bool
  descriptor_pool_ok : Bool
  depth_ok : Bool
  framebuffers_ok : Bool
  deriving DecidableEq, Repr

/-- The setup steps of `vulkan_context_create`, for the attempt trace. -/
inductive SetupStep where
  | surfaceStep
  | selectDevice
  | createDevice
  | allocCtx
  | allocRenderables
  | swapchainStep
  | commandPool
  | commandBuffers
  | syncObjects
  | renderPass
  | pipelineStep
  | descriptorPool
  | depthResources
  | framebufferStep
  deriving DecidableEq, Fintype, Repr

/-- The sequential early-return pattern of lines 1907-2032: attempt each
step once, in program order; the first failure cleans up and returns
NULL; when all steps succeed the context (handle 1) is returned.  `acc`
holds the steps attempted so far, most recent first. -/
def runSetupSteps : List (Bool × SetupStep) → List SetupStep →
    ProcResult (Option Nat) × List SetupStep
  | [], acc => (.ret (some 1), acc.reverse)
  | (ok, st) :: rest, acc =>
    if ok = false then (.ret none, (st :: acc).reverse)
    else runSetupSteps rest (st :: acc)

/-- The setup sequence of `vulkan_context_create` after surface
creation, in program order, paired with each step's outcome:
select_physical_device, create_logical_device, the two mallocs,
create_swapchain, create_command_pool, create_command_buffers,
create_sync_objects, create_render_pass, create_graphics_pipeline,
create_descriptor_pool, create_depth_resources, create_framebuffers. -/
def setupSequence (env : CreateContextEnv) : List (Bool × SetupStep) :=
  [(env.select_device_ok, .selectDevice),
   (env.create_device_ok, .createDevice),
   (env.malloc_ctx_ok, .allocCtx),
   (env.malloc_renderables_ok, .allocRenderables),
   (env.swapchain_ok, .swapchainStep),
   (env.command_pool_ok, .commandPool),
   (env.command_buffers_ok, .commandBuffers),
   (env.sync_objects_ok, .syncObjects),
   (env.render_pass_ok, .renderPass),
   (env.pipeline_ok, .pipelineStep),
   (env.descriptor_pool_ok, .descriptorPool),
   (env.depth_ok, .depthResources),
   (env.framebuffers_ok, .framebufferStep)]

/-- Shallow embedding of `vulkan_context_create`
(src/src/vulkan_renderer.c lines 1888-2039): NULL window or missing
instance return NULL at once; `create_surface` runs next (and exits the
process on its own failures); then every further setup step runs once in
order with the first failure returning NULL.  The returned trace lists
the steps attempted (framebuffer-size polling and plain field
initialisation between steps cannot fail and are not traced). -/
def vulkan_context_create (env : CreateContextEnv) :
    ProcResult (Option Nat) × List SetupStep :=
  if env.window_nonnull = false then (.ret none, [])
  else if env.instance_ok = false then (.ret none, [])
  else
    match create_surface env.surface with
    | .exited c => (.exited c, [.surfaceStep])
    | .ret srf =>
      if srf = 0 then (.ret none, [.surfaceStep])
      else runSetupSteps (setupSequence env) [.surfaceStep]

/-- Every run of the setup sequence returns NULL or a context — it
cannot exit the process. -/
theorem runSetupSteps_result : ∀ (l : List (Bool × SetupStep)) (acc : List SetupStep),
    (runSetupSteps l acc).1 = .ret none ∨ (runSetupSteps l acc).1 = .ret (some 1)
  | [], _ => Or.inr rfl
  | (ok, st) :: rest, acc => by
    unfold runSetupSteps
    split
    · exact Or.inl rfl
    · exact runSetupSteps_result rest (st :: acc)

/-- The attempt trace of a setup run is the accumulator followed by a
prefix of the remaining step order: steps are never repeated. -/
theorem runSetupSteps_trace : ∀ (l : List (Bool × SetupStep)) (acc : List SetupStep),
    ∃ k, (runSetupSteps l acc).2 = acc.reverse ++ (l.map Prod.snd).take k
  | [], acc => ⟨0, by simp [runSetupSteps]⟩
  | (ok, st) :: rest, acc => by
    unfold runSetupSteps
    split
    · exact ⟨1, by simp⟩
    · obtain ⟨k, hk⟩ := runSetupSteps_trace rest (st :: acc)
      exact ⟨k + 1, by simp [hk]⟩

/-- Environment whose platform-surface creation fails (X11 handles not
obtainable) while window and instance are fine. -/
def c1BadEnv : CreateContextEnv :=
  ⟨true, true, ⟨.x11, false, true⟩, true, true, true, true, true, true, true,
   true, true, true, true, true, true⟩

/-- Counterexample to C1 as stated: a create_context call with a
non-null window on an initialized engine whose platform-surface creation
fails does NOT return null — `create_surface` prints FATAL ERROR and
exits the process with status 1 (lines 473-474, 484-487), so the typed
NULL failure never reaches the caller. -/
theorem c1_surface_failure_exits_counterexample :
    ¬ (∀ env : CreateContextEnv, env.window_nonnull = true →
        env.instance_ok = true →
        (vulkan_context_create env).1 ≠ .ret (some 1) →
        (vulkan_context_create env).1 = .ret none) := by
  intro h
  have hbad := h c1BadEnv rfl rfl (by decide)
  exact absurd hbad (by decide)

/-- Conclusion of the amended C1 at a given environment: the call
returns (null or a context) to the caller — the process is never
terminated — every non-success returns the typed NULL failure, and no
setup step is attempted more than once (no auto-retry). -/
def c1AmendedProp (env : CreateContextEnv) : Prop :=
  ((vulkan_context_create env).1 = .ret none ∨
   (vulkan_context_create env).1 = .ret (some 1)) ∧
  ((vulkan_context_create env).1 ≠ .ret (some 1) →
   (vulkan_context_create env).1 = .ret none) ∧
  (∀ st : SetupStep, ((vulkan_context_create env).2.count st) ≤ 1)

/-- C1 amended: whenever platform-surface creation succeeds, a failure
at any later setup step of `vulkan_context_create` returns null to the
caller as a typed failure, never terminates the process, and no setup
step is auto-retried.  (When surface creation itself fails, the process
exits instead — see the counterexample.) -/
theorem c1_failure_after_surface_returns_null (env : CreateContextEnv)
    (hsurf : create_surface env.surface = .ret 1) :
    c1AmendedProp env := by
  by_cases hw : env.window_nonnull = false
  · have h : vulkan_context_create env = (.ret none, []) := by
      simp [vulkan_context_create, hw]
    exact ⟨Or.inl (by rw [h]), fun _ => by rw [h], fun st => by rw [h]; simp⟩
  · by_cases hi : env.instance_ok = false
    · have h : vulkan_context_create env = (.ret none, []) := by
        simp [vulkan_context_create, hw, hi]
      exact ⟨Or.inl (by rw [h]), fun _ => by rw [h], fun st => by rw [h]; simp⟩
    · have h : vulkan_context_create env =
          runSetupSteps (setupSequence env) [.surfaceStep] := by
        simp [vulkan_context_create, hw, hi, hsurf]
      obtain ⟨k, hk⟩ := runSetupSteps_trace (setupSequence env) [.surfaceStep]
      refine ⟨?_, ?_, ?_⟩
      · rw [h]
        exact runSetupSteps_result _ _
      · rw [h]
        intro hne
        rcases runSetupSteps_result (setupSequence env) [.surfaceStep] with hres | hres
        · exact hres
        · exact absurd hres hne
      · intro st
        rw [h, hk]
        have hsub : List.Sublist
            ([SetupStep.surfaceStep].reverse ++
              ((setupSequence env).map Prod.snd).take k)
            ([SetupStep.surfaceStep].reverse ++ (setupSequence env).map Prod.snd) :=
          List.Sublist.append_left (List.take_sublist _ _) _
        refine le_trans (hsub.count_le st) ?_
        have hmap : (setupSequence env).map Prod.snd =
            [SetupStep.selectDevice, .createDevice, .allocCtx, .allocRenderables,
             .swapchainStep, .commandPool, .commandBuffers, .syncObjects,
             .renderPass, .pipelineStep, .descriptorPool, .depthResources,
             .framebufferStep] := rfl
        have hnodup : ([SetupStep.surfaceStep].reverse ++
            (setupSequence env).map Prod.snd).Nodup := by
          rw [hmap]
          decide
        exact List.nodup_iff_count_le_one.mp hnodup st

/-- Witness for the amended C1: a concrete environment whose swapchain
creation fails returns the typed NULL failure. -/
theorem c1_failure_after_surface_returns_null_witness :
    create_surface (⟨.x11, true, true⟩ : SurfaceEnv) = .ret 1 ∧
    c1AmendedProp ⟨true, true, ⟨.x11, true, true⟩, true, true, true, true,
      false, true, true, true, true, true, true, true, true⟩ :=
  ⟨by decide,
   c1_failure_after_surface_returns_null
     ⟨true, true, ⟨.x11, true, true⟩, true, true, true, true,
      false, true, true, true, true, true, true, true, true⟩ (by decide)⟩

/-! ## Frame orchestration (vulkan_context_begin_frame /
vulkan_context_end_frame) and C2, C3, C5

The per-frame slice of `struct poc_context` plus the outcomes of the
Vulkan calls, with a trace of the synchronization-relevant operations.
Indices into `in_flight_fences` (size MAX_FRAMES_IN_FLIGHT), the
per-image semaphore arrays and the per-image command buffers are plain
naturals. -/

/-- MAX_FRAMES_IN_FLIGHT (src/src/vulkan_renderer.c line 131). -/
def MAX_FRAMES_IN_FLIGHT : Nat := 2

/-- The frame-orchestration fields of `struct poc_context`. -/
structure FrameState where
  current_frame : Nat
  current_image_index : Nat
  current_acquire_semaphore_index : Nat
  swapchain_image_count : Nat
  swapchain_width : Nat
  swapchain_height : Nat
  last_known_width : Nat
  last_known_height : Nat
  needs_swapchain_recreation : Bool
  deriving DecidableEq, Repr

/-- Synchronization-relevant operations issued by begin_frame/end_frame.
`queueSubmit w r c f` waits on image_available_semaphores[w], signals
render_finished_semaphores[r], submits command_buffers[c] and attaches
in_flight_fences[f]; `presentImage w i` waits on
render_finished_semaphores[w] and presents image i. -/
inductive FrameEvent where
  | recreateSwapchain
  | waitFence (i : Nat)
  | resetFence (i : Nat)
  | acquireImage (semaphore_index : Nat)
  | resetCommandBuffer (i : Nat)
  | recordCommandBuffer (i : Nat)
  | queueSubmit (wait_acquire_semaphore : Nat) (signal_render_semaphore : Nat)
      (command_buffer : Nat) (fence : Nat)
  | presentImage (wait_render_semaphore : Nat) (image_index : Nat)
  deriving DecidableEq, Repr

/-- Outcome of a `recreate_swapchain` call: whether it succeeded, and
the extent and image count the new swapchain got from the surface. -/
structure RecreateEnv where
  ok : Bool
  newWidth : Nat
  newHeight : Nat
  newImageCount : Nat
  deriving DecidableEq, Repr

/-- Result of vkAcquireNextImageKHR as distinguished by the code. -/
inductive VkAcquireResult where
  | success (image_index : Nat)
  | suboptimal (image_index : Nat)
  | outOfDate
  | otherError
  deriving DecidableEq, Repr

/-- Result of vkQueuePresentKHR as distinguished by the code. -/
inductive VkPresentResult where
  | success
  | suboptimal
  | outOfDate
  | otherError
  deriving DecidableEq, Repr

/-- Outcomes of the external calls made by one
`vulkan_context_begin_frame` call: the polled framebuffer size, the two
possible recreations, the two possible acquisitions, and the VK_CHECKed
command-buffer recording calls. -/
structure BeginEnv where
  fbWidth : Nat
  fbHeight : Nat
  resizeRecreate : RecreateEnv
  acquire1 : VkAcquireResult
  acquireRecreate : RecreateEnv
  acquire2 : VkAcquireResult
  record_ok : Bool
  deriving DecidableEq, Repr

/-- Outcomes of the external calls made by one
`vulkan_context_end_frame` call. -/
structure EndEnv where
  submit_ok : Bool
  presentResult : VkPresentResult
  presentRecreate : RecreateEnv
  deriving DecidableEq, Repr

/-- Effect of `recreate_swapchain` (src/src/vulkan_renderer.c lines
1198-1237) on the modelled fields: the swapchain extent and image count
are re-derived from the surface; the semaphore arrays and fences are NOT
recreated, and the frame counters are untouched. -/
def recreate_swapchain_apply (s : FrameState) (e : RecreateEnv) : FrameState :=
  { s with swapchain_width := e.newWidth
           swapchain_height := e.newHeight
           swapchain_image_count := e.newImageCount }

/-- Size-change tracking at the top of begin_frame (lines 2320-2330):
a framebuffer size differing from the last known size flags pending
recreation and updates the last known size. -/
def begin_frame_track_resize (s : FrameState) (fbW fbH : Nat) : FrameState :=
  if fbW ≠ s.last_known_width ∨ fbH ≠ s.last_known_height then
    { s with needs_swapchain_recreation := true
             last_known_width := fbW
             last_known_height := fbH }
  else s

/-- The debounced-recreation prologue of begin_frame (lines 2320-2344):
recreation actually runs only when flagged AND the polled size differs
from the current swapchain extent; its failure aborts begin_frame with
the recreation's error.  Returns `some error` to abort, else `none` and
the state entering the synchronization part. -/
def begin_frame_resize_phase (s : FrameState) (env : BeginEnv) :
    Option poc_result × FrameState × List FrameEvent :=
  let s1 := begin_frame_track_resize s env.fbWidth env.fbHeight
  if s1.needs_swapchain_recreation = true ∧
      (env.fbWidth ≠ s1.swapchain_width ∨ env.fbHeight ≠ s1.swapchain_height) then
    if env.resizeRecreate.ok = false then
      (some .errorInitFailed, s1, [.recreateSwapchain])
    else
      (none, { recreate_swapchain_apply s1 env.resizeRecreate with
                 needs_swapchain_recreation := false }, [.recreateSwapchain])
  else (none, s1, [])

/-- The tail of begin_frame after a successful acquisition (lines
2374-2506): reset and record the command buffer owned by the acquired
image (both VK_CHECKed calls folded into `record_ok`), then store the
acquired image index and the acquire-semaphore slot. -/
def begin_frame_finish (s : FrameState) (idx semIdx : Nat)
    (evs : List FrameEvent) (record_ok : Bool) :
    poc_result × FrameState × List FrameEvent :=
  if record_ok = false then
    (.errorInitFailed, s, evs ++ [.resetCommandBuffer idx])
  else
    (.success,
     { s with current_image_index := idx
              current_acquire_semaphore_index := semIdx },
     evs ++ [.resetCommandBuffer idx, .recordCommandBuffer idx])

/-- The synchronization part of begin_frame (lines 2346-2372): wait and
reset in_flight_fences[current_frame]; compute the acquire-semaphore
slot current_frame % swapchain_image_count; acquire — on
VK_ERROR_OUT_OF_DATE_KHR recreate the swapchain and retry once with the
same semaphore slot; any result other than success/suboptimal fails with
init-failed. -/
def begin_frame_sync_phase (s : FrameState) (env : BeginEnv) :
    poc_result × FrameState × List FrameEvent :=
  let cf := s.current_frame
  let semIdx := cf % s.swapchain_image_count
  let pre : List FrameEvent := [.waitFence cf, .resetFence cf, .acquireImage semIdx]
  match env.acquire1 with
  | .success idx => begin_frame_finish s idx semIdx pre env.record_ok
  | .suboptimal idx => begin_frame_finish s idx semIdx pre env.record_ok
  | .otherError => (.errorInitFailed, s, pre)
  | .outOfDate =>
    if env.acquireRecreate.ok = false then
      (.errorInitFailed, s, pre ++ [.recreateSwapchain])
    else
      let s2 := recreate_swapchain_apply s env.acquireRecreate
      let evs := pre ++ [.recreateSwapchain, .acquireImage semIdx]
      match env.acquire2 with
      | .success idx => begin_frame_finish s2 idx semIdx evs env.record_ok
      | .suboptimal idx => begin_frame_finish s2 idx semIdx evs env.record_ok
      | _ => (.errorInitFailed, s2, evs)

/-- Shallow embedding of `vulkan_context_begin_frame`
(src/src/vulkan_renderer.c lines 2315-2507). -/
def vulkan_context_begin_frame (s : FrameState) (env : BeginEnv) :
    poc_result × FrameState × List FrameEvent :=
  match begin_frame_resize_phase s env with
  | (some r, s1, evs) => (r, s1, evs)
  | (none, s1, evs) =>
    match begin_frame_sync_phase s1 env with
    | (r, s2, evs2) => (r, s2, evs ++ evs2)

/-- Shallow embedding of `vulkan_context_end_frame`
(src/src/vulkan_renderer.c lines 2509-2568): submit the recorded command
buffer waiting on the acquire semaphore used in begin_frame, signaling
render_finished_semaphores[image_index] and fencing on
in_flight_fences[current_frame]; present waiting on that render-finished
semaphore; stale/suboptimal presentation recreates the swapchain and —
when the recreation succeeds — the frame still completes: current_frame
advances and the call returns success. -/
def vulkan_context_end_frame (s : FrameState) (env : EndEnv) :
    poc_result × FrameState × List FrameEvent :=
  let idx := s.current_image_index
  let submitEv : FrameEvent :=
    .queueSubmit s.current_acquire_semaphore_index idx idx s.current_frame
  if env.submit_ok = false then (.errorInitFailed, s, [submitEv])
  else
    let evs : List FrameEvent := [submitEv, .presentImage idx idx]
    match env.presentResult with
    | .outOfDate =>
      if env.presentRecreate.ok = false then
        (.errorInitFailed, s, evs ++ [.recreateSwapchain])
      else
        (.success,
         { recreate_swapchain_apply s env.presentRecreate with
             current_frame := (s.current_frame + 1) % MAX_FRAMES_IN_FLIGHT },
         evs ++ [.recreateSwapchain])
    | .suboptimal =>
      if env.presentRecreate.ok = false then
        (.errorInitFailed, s, evs ++ [.recreateSwapchain])
      else
        (.success,
         { recreate_swapchain_apply s env.presentRecreate with
             current_frame := (s.current_frame + 1) % MAX_FRAMES_IN_FLIGHT },
         evs ++ [.recreateSwapchain])
    | .success =>
      (.success, { s with current_frame := (s.current_frame + 1) % MAX_FRAMES_IN_FLIGHT },
       evs)
    | .otherError => (.errorInitFailed, s, evs)

/-! ### C5: transient presentation errors are recovered transparently -/

/-- C5: whenever presentation inside end_frame reports a stale
(out-of-date) or suboptimal swapchain and the local recreation succeeds,
end_frame returns success, still advances current_frame, and the
transient error is never surfaced — the trace shows submit, present,
then the local recreation. -/
theorem c5_present_transient_recovered (s : FrameState) (env : EndEnv)
    (hsub : env.submit_ok = true)
    (hp : env.presentResult = .outOfDate ∨ env.presentResult = .suboptimal)
    (hr : env.presentRecreate.ok = true) :
    (vulkan_context_end_frame s env).1 = .success ∧
    (vulkan_context_end_frame s env).2.1.current_frame =
      (s.current_frame + 1) % MAX_FRAMES_IN_FLIGHT ∧
    (vulkan_context_end_frame s env).2.2 =
      [.queueSubmit s.current_acquire_semaphore_index s.current_image_index
        s.current_image_index s.current_frame,
       .presentImage s.current_image_index s.current_image_index,
       .recreateSwapchain] := by
  rcases hp with hp | hp <;>
    simp [vulkan_context_end_frame, hsub, hp, hr, recreate_swapchain_apply]

/-- Witness for C5 at a concrete context state and an out-of-date
presentation. -/
theorem c5_present_transient_recovered_witness :
    (vulkan_context_end_frame ⟨0, 1, 0, 3, 800, 600, 800, 600, false⟩
       ⟨true, .outOfDate, ⟨true, 640, 480, 3⟩⟩).1 = .success ∧
    (vulkan_context_end_frame ⟨0, 1, 0, 3, 800, 600, 800, 600, false⟩
       ⟨true, .outOfDate, ⟨true, 640, 480, 3⟩⟩).2.1.current_frame =
      (0 + 1) % MAX_FRAMES_IN_FLIGHT ∧
    (vulkan_context_end_frame ⟨0, 1, 0, 3, 800, 600, 800, 600, false⟩
       ⟨true, .outOfDate, ⟨true, 640, 480, 3⟩⟩).2.2 =
      [.queueSubmit 0 1 1 0, .presentImage 1 1, .recreateSwapchain] :=
  c5_present_transient_recovered ⟨0, 1, 0, 3, 800, 600, 800, 600, false⟩
    ⟨true, .outOfDate, ⟨true, 640, 480, 3⟩⟩ rfl (Or.inl rfl) rfl

/-! ### Characterization lemmas for the frame cycle -/

/-- The resize prologue never touches the frame counter. -/
theorem begin_frame_resize_phase_preserves (s : FrameState) (env : BeginEnv) :
    (begin_frame_resize_phase s env).2.1.current_frame = s.current_frame := by
  simp only [begin_frame_resize_phase, begin_frame_track_resize,
    recreate_swapchain_apply]
  repeat' split
  all_goals rfl

/-- When the resize prologue aborts begin_frame it aborts with
init-failed (the recreation's error). -/
theorem begin_frame_resize_phase_fail (s : FrameState) (env : BeginEnv)
    (r : poc_result) (h : (begin_frame_resize_phase s env).1 = some r) :
    r = .errorInitFailed := by
  simp only [begin_frame_resize_phase, begin_frame_track_resize,
    recreate_swapchain_apply] at h
  repeat' split at h
  all_goals simp_all

/-- begin_frame is the resize prologue followed by the synchronization
part whenever the prologue does not abort. -/
theorem begin_frame_eq_of_resize_none (s : FrameState) (env : BeginEnv)
    (h : (begin_frame_resize_phase s env).1 = none) :
    vulkan_context_begin_frame s env =
      ((begin_frame_sync_phase (begin_frame_resize_phase s env).2.1 env).1,
       (begin_frame_sync_phase (begin_frame_resize_phase s env).2.1 env).2.1,
       (begin_frame_resize_phase s env).2.2 ++
         (begin_frame_sync_phase (begin_frame_resize_phase s env).2.1 env).2.2) := by
  unfold vulkan_context_begin_frame
  rcases hres : begin_frame_resize_phase s env with ⟨o, s1, evs⟩
  rw [hres] at h
  simp only at h
  subst h
  rcases hsync : begin_frame_sync_phase s1 env with ⟨r2, s2, evs2⟩
  simp [hres, hsync]

/-- Characterization of a successful synchronization part: the frame
counter is untouched, the acquire-semaphore slot is
current_frame % swapchain_image_count (with the image count as of entry),
the fence at current_frame is waited and reset before acquisition, the
swapchain is recreated and acquisition retried exactly once when the
first acquire reports out-of-date, and the command buffer of the
acquired image index is reset and recorded. -/
theorem begin_frame_sync_success (s : FrameState) (env : BeginEnv)
    (h : (begin_frame_sync_phase s env).1 = .success) :
    (begin_frame_sync_phase s env).2.1.current_frame = s.current_frame ∧
    (begin_frame_sync_phase s env).2.1.current_acquire_semaphore_index =
      s.current_frame % s.swapchain_image_count ∧
    (begin_frame_sync_phase s env).2.2 =
      [.waitFence s.current_frame, .resetFence s.current_frame,
       .acquireImage (s.current_frame % s.swapchain_image_count)] ++
      (if env.acquire1 = .outOfDate then
        [FrameEvent.recreateSwapchain,
         .acquireImage (s.current_frame % s.swapchain_image_count)]
       else []) ++
      [.resetCommandBuffer (begin_frame_sync_phase s env).2.1.current_image_index,
       .recordCommandBuffer (begin_frame_sync_phase s env).2.1.current_image_index] := by
  rcases ha : env.acquire1 with idx | idx | _ | _
  · cases hrec : env.record_ok
    · simp [begin_frame_sync_phase, begin_frame_finish, ha, hrec] at h
    · simp [begin_frame_sync_phase, begin_frame_finish, ha, hrec]
  · cases hrec : env.record_ok
    · simp [begin_frame_sync_phase, begin_frame_finish, ha, hrec] at h
    · simp [begin_frame_sync_phase, begin_frame_finish, ha, hrec]
  · cases hro : env.acquireRecreate.ok
    · simp [begin_frame_sync_phase, ha, hro] at h
    · rcases ha2 : env.acquire2 with idx | idx | _ | _
      · cases hrec : env.record_ok
        · simp [begin_frame_sync_phase, begin_frame_finish, ha, hro, ha2, hrec] at h
        · simp [begin_frame_sync_phase, begin_frame_finish, recreate_swapchain_apply,
            ha, hro, ha2, hrec]
      · cases hrec : env.record_ok
        · simp [begin_frame_sync_phase, begin_frame_finish, ha, hro, ha2, hrec] at h
        · simp [begin_frame_sync_phase, begin_frame_finish, recreate_swapchain_apply,
            ha, hro, ha2, hrec]
      · simp [begin_frame_sync_phase, ha, hro, ha2] at h
      · simp [begin_frame_sync_phase, ha, hro, ha2] at h
  · simp [begin_frame_sync_phase, ha] at h

/-- Characterization of a successful end_frame: its trace is the submit
(waiting on the stored acquire semaphore, signaling
render_finished[image], fencing on F[current_frame]) followed by the
present (waiting on that render-finished semaphore), with a local
recreation appended exactly when presentation was not plain success; the
frame counter advances modulo MAX_FRAMES_IN_FLIGHT. -/
theorem end_frame_success_char (s : FrameState) (env : EndEnv)
    (h : (vulkan_context_end_frame s env).1 = .success) :
    (vulkan_context_end_frame s env).2.2 =
      [.queueSubmit s.current_acquire_semaphore_index s.current_image_index
        s.current_image_index s.current_frame,
       .presentImage s.current_image_index s.current_image_index] ++
      (if env.presentResult = .success then [] else [FrameEvent.recreateSwapchain]) ∧
    (vulkan_context_end_frame s env).2.1.current_frame =
      (s.current_frame + 1) % MAX_FRAMES_IN_FLIGHT := by
  cases hsub : env.submit_ok
  · simp [vulkan_context_end_frame, hsub] at h
  · rcases hp : env.presentResult
    · simp [vulkan_context_end_frame, hsub, hp]
    · cases hro : env.presentRecreate.ok
      · simp [vulkan_context_end_frame, hsub, hp, hro] at h
      · simp [vulkan_context_end_frame, hsub, hp, hro, recreate_swapchain_apply]
    · cases hro : env.presentRecreate.ok
      · simp [vulkan_context_end_frame, hsub, hp, hro] at h
      · simp [vulkan_context_end_frame, hsub, hp, hro, recreate_swapchain_apply]
    · simp [vulkan_context_end_frame, hsub, hp] at h

/-! ### C2: the per-frame algorithm -/

/-- Conclusion of claim C2 for a frame cycle at state `s` with call
outcomes `envB`, `envE`: (a) begin_frame leaves the frame counter at
current_frame and its trace is the (possible) debounced resize
recreation, then wait + reset of fence F[current_frame], then an
acquisition with semaphore slot current_frame mod N (N the swapchain
image count as of acquisition, i.e. after any resize recreation),
retried exactly once after a recreation when the first acquire reported
a stale swapchain, then reset + record of the command buffer owned by
the acquired image index; (b) the stored acquire-semaphore slot is that
same slot; (c) end_frame submits waiting on that acquire semaphore,
signaling the render-finished semaphore indexed by the acquired image,
fencing on F[current_frame], then presents waiting on that
render-finished semaphore (recreating locally when not plain success);
(d) current_frame then advances to (current_frame + 1) mod F with
F = MAX_FRAMES_IN_FLIGHT = 2. -/
def c2Prop (s : FrameState) (envB : BeginEnv) (envE : EndEnv) : Prop :=
  (vulkan_context_begin_frame s envB).2.1.current_frame = s.current_frame ∧
  (vulkan_context_begin_frame s envB).2.1.current_acquire_semaphore_index =
    s.current_frame %
      (begin_frame_resize_phase s envB).2.1.swapchain_image_count ∧
  (vulkan_context_begin_frame s envB).2.2 =
    (begin_frame_resize_phase s envB).2.2 ++
    [.waitFence s.current_frame, .resetFence s.current_frame,
     .acquireImage (s.current_frame %
       (begin_frame_resize_phase s envB).2.1.swapchain_image_count)] ++
    (if envB.acquire1 = .outOfDate then
      [FrameEvent.recreateSwapchain,
       .acquireImage (s.current_frame %
         (begin_frame_resize_phase s envB).2.1.swapchain_image_count)]
     else []) ++
    [.resetCommandBuffer (vulkan_context_begin_frame s envB).2.1.current_image_index,
     .recordCommandBuffer (vulkan_context_begin_frame s envB).2.1.current_image_index] ∧
  (vulkan_context_end_frame (vulkan_context_begin_frame s envB).2.1 envE).2.2 =
    [.queueSubmit
       (vulkan_context_begin_frame s envB).2.1.current_acquire_semaphore_index
       (vulkan_context_begin_frame s envB).2.1.current_image_index
       (vulkan_context_begin_frame s envB).2.1.current_image_index
       s.current_frame,
     .presentImage (vulkan_context_begin_frame s envB).2.1.current_image_index
       (vulkan_context_begin_frame s envB).2.1.current_image_index] ++
    (if envE.presentResult = .success then [] else [FrameEvent.recreateSwapchain]) ∧
  (vulkan_context_end_frame (vulkan_context_begin_frame s envB).2.1 envE).2.1.current_frame =
    (s.current_frame + 1) % MAX_FRAMES_IN_FLIGHT ∧
  MAX_FRAMES_IN_FLIGHT = 2

/-- C2: every frame cycle in which begin_frame and end_frame both
succeed follows the spec's per-frame algorithm. -/
theorem c2_per_frame_algorithm (s : FrameState) (envB : BeginEnv) (envE : EndEnv)
    (hb : (vulkan_context_begin_frame s envB).1 = .success)
    (he : (vulkan_context_end_frame (vulkan_context_begin_frame s envB).2.1 envE).1 =
      .success) :
    c2Prop s envB envE := by
  have hresn : (begin_frame_resize_phase s envB).1 = none := by
    rcases hro : (begin_frame_resize_phase s envB).1 with _ | r
    · rfl
    · exfalso
      have hfail := begin_frame_resize_phase_fail s envB r hro
      have hbr : (vulkan_context_begin_frame s envB).1 = r := by
        unfold vulkan_context_begin_frame
        rcases hres : begin_frame_resize_phase s envB with ⟨o, s1, evs⟩
        rw [hres] at hro
        simp only at hro
        subst hro
        simp
      rw [hbr, hfail] at hb
      exact absurd hb (by decide)
  have hcomp := begin_frame_eq_of_resize_none s envB hresn
  have hb21 : (vulkan_context_begin_frame s envB).2.1 =
      (begin_frame_sync_phase (begin_frame_resize_phase s envB).2.1 envB).2.1 := by
    rw [hcomp]
  have hb22 : (vulkan_context_begin_frame s envB).2.2 =
      (begin_frame_resize_phase s envB).2.2 ++
      (begin_frame_sync_phase (begin_frame_resize_phase s envB).2.1 envB).2.2 := by
    rw [hcomp]
  have hsyncs : (begin_frame_sync_phase (begin_frame_resize_phase s envB).2.1 envB).1 =
      .success := by
    rw [hcomp] at hb
    exact hb
  obtain ⟨hc1, hc2, hc3⟩ :=
    begin_frame_sync_success (begin_frame_resize_phase s envB).2.1 envB hsyncs
  have hcf := begin_frame_resize_phase_preserves s envB
  have hbcf : (vulkan_context_begin_frame s envB).2.1.current_frame = s.current_frame := by
    rw [hb21, hc1, hcf]
  obtain ⟨he1, he2⟩ :=
    end_frame_success_char (vulkan_context_begin_frame s envB).2.1 envE he
  refine ⟨hbcf, ?_, ?_, ?_, ?_, rfl⟩
  · rw [hb21, hc2, hcf]
  · rw [hb22, hc3, hcf, hb21]
    simp [List.append_assoc]
  · rw [he1, hbcf]
  · rw [he2, hbcf]

/-- Witness for C2 at a concrete state and a cycle whose first
acquisition reports a stale swapchain (exercising the retry) and whose
presentation is suboptimal (exercising the transparent recreation). -/
theorem c2_per_frame_algorithm_witness :
    c2Prop ⟨1, 0, 0, 3, 800, 600, 800, 600, false⟩
      ⟨800, 600, ⟨true, 800, 600, 3⟩, .outOfDate, ⟨true, 820, 640, 4⟩, .success 2, true⟩
      ⟨true, .suboptimal, ⟨true, 820, 640, 4⟩⟩ :=
  c2_per_frame_algorithm ⟨1, 0, 0, 3, 800, 600, 800, 600, false⟩
    ⟨800, 600, ⟨true, 800, 600, 3⟩, .outOfDate, ⟨true, 820, 640, 4⟩, .success 2, true⟩
    ⟨true, .suboptimal, ⟨true, 820, 640, 4⟩⟩ (by decide) (by decide)

/-! ### C3: fence schedule across successive frames -/

/-- Call outcomes of an uneventful begin_frame: the polled framebuffer
size equals the last known size, the first acquisition succeeds with
image index `idx`, recording succeeds (the recreation outcomes are
irrelevant as no recreation runs). -/
def nominalBeginEnv (s : FrameState) (idx : Nat) : BeginEnv :=
  ⟨s.last_known_width, s.last_known_height,
   ⟨true, s.swapchain_width, s.swapchain_height, s.swapchain_image_count⟩,
   .success idx,
   ⟨true, s.swapchain_width, s.swapchain_height, s.swapchain_image_count⟩,
   .success idx, true⟩

/-- Call outcomes of an uneventful end_frame: submission and plain
presentation success. -/
def nominalEndEnv : EndEnv := ⟨true, .success, ⟨true, 0, 0, 0⟩⟩

/-- An uneventful begin_frame in full: fence F[current_frame] waited and
reset, acquisition with slot current_frame % N, command buffer of the
acquired image reset and recorded. -/
theorem nominal_begin (rs : FrameState) (i : Nat)
    (hn : rs.needs_swapchain_recreation = false) :
    vulkan_context_begin_frame rs (nominalBeginEnv rs i) =
      (.success,
       { rs with current_image_index := i
                 current_acquire_semaphore_index :=
                   rs.current_frame % rs.swapchain_image_count },
       [.waitFence rs.current_frame, .resetFence rs.current_frame,
        .acquireImage (rs.current_frame % rs.swapchain_image_count),
        .resetCommandBuffer i, .recordCommandBuffer i]) := by
  unfold vulkan_context_begin_frame begin_frame_resize_phase
    begin_frame_track_resize begin_frame_sync_phase begin_frame_finish
  simp [hn, nominalBeginEnv]

/-- An uneventful end_frame in full: submit waiting on the stored
acquire semaphore, signaling render_finished[image], fencing on
F[current_frame]; present; advance the frame counter. -/
theorem nominal_end (rs : FrameState) :
    vulkan_context_end_frame rs nominalEndEnv =
      (.success,
       { rs with current_frame := (rs.current_frame + 1) % MAX_FRAMES_IN_FLIGHT },
       [.queueSubmit rs.current_acquire_semaphore_index rs.current_image_index
          rs.current_image_index rs.current_frame,
        .presentImage rs.current_image_index rs.current_image_index]) := by
  unfold vulkan_context_end_frame
  simp [nominalEndEnv]

/-- State after one uneventful frame cycle drawing image `f k`. -/
def frameCycleState (f : Nat → Nat) (k : Nat) (s : FrameState) : FrameState :=
  (vulkan_context_end_frame
    (vulkan_context_begin_frame s (nominalBeginEnv s (f k))).2.1 nominalEndEnv).2.1

/-- State after `k` uneventful frame cycles starting from `s0`, the k-th
cycle drawing image `f (k-1)`. -/
def runFrames (f : Nat → Nat) (s0 : FrameState) : Nat → FrameState
  | 0 => s0
  | k + 1 => frameCycleState f k (runFrames f s0 k)

/-- Trace of the k-th (1-indexed) begin_frame call of the run. -/
def kthBeginTrace (f : Nat → Nat) (s0 : FrameState) (k : Nat) : List FrameEvent :=
  (vulkan_context_begin_frame (runFrames f s0 (k - 1))
    (nominalBeginEnv (runFrames f s0 (k - 1)) (f (k - 1)))).2.2

/-- Trace of the k-th (1-indexed) end_frame call of the run. -/
def kthEndTrace (f : Nat → Nat) (s0 : FrameState) (k : Nat) : List FrameEvent :=
  (vulkan_context_end_frame
    (vulkan_context_begin_frame (runFrames f s0 (k - 1))
      (nominalBeginEnv (runFrames f s0 (k - 1)) (f (k - 1)))).2.1
    nominalEndEnv).2.2

/-- An uneventful cycle only advances the frame counter and stores the
image/semaphore indices. -/
theorem frameCycleState_eq (f : Nat → Nat) (k : Nat) (s : FrameState)
    (hn : s.needs_swapchain_recreation = false) :
    frameCycleState f k s =
      { s with current_frame := (s.current_frame + 1) % MAX_FRAMES_IN_FLIGHT
               current_image_index := f k
               current_acquire_semaphore_index :=
                 s.current_frame % s.swapchain_image_count } := by
  unfold frameCycleState
  rw [nominal_begin s (f k) hn, nominal_end]

/-- Invariants of the uneventful run: the frame counter cycles through
k mod MAX_FRAMES_IN_FLIGHT and the swapchain/window bookkeeping is
untouched. -/
theorem runFrames_spec (f : Nat → Nat) (s0 : FrameState)
    (hn : s0.needs_swapchain_recreation = false)
    (h0 : s0.current_frame = 0) :
    ∀ k, (runFrames f s0 k).current_frame = k % MAX_FRAMES_IN_FLIGHT ∧
      (runFrames f s0 k).needs_swapchain_recreation = false ∧
      (runFrames f s0 k).swapchain_image_count = s0.swapchain_image_count
  | 0 => by
    refine ⟨?_, hn, rfl⟩
    simp [runFrames, MAX_FRAMES_IN_FLIGHT, h0]
  | k + 1 => by
    obtain ⟨h1, h2, h3⟩ := runFrames_spec f s0 hn h0 k
    simp only [runFrames]
    rw [frameCycleState_eq f k _ h2]
    refine ⟨?_, h2, h3⟩
    show ((runFrames f s0 k).current_frame + 1) % MAX_FRAMES_IN_FLIGHT =
      (k + 1) % MAX_FRAMES_IN_FLIGHT
    rw [h1]
    simp only [MAX_FRAMES_IN_FLIGHT]
    omega

/-- The k-th end_frame trace, for every k ≥ 1: one submission with fence
F[(k-1) mod 2], then the present. -/
theorem kthEndTrace_eq (f : Nat → Nat) (s0 : FrameState)
    (hn : s0.needs_swapchain_recreation = false)
    (h0 : s0.current_frame = 0) :
    ∀ j, 1 ≤ j → kthEndTrace f s0 j =
      [.queueSubmit
        (((j - 1) % MAX_FRAMES_IN_FLIGHT) % s0.swapchain_image_count)
        (f (j - 1)) (f (j - 1)) ((j - 1) % MAX_FRAMES_IN_FLIGHT),
       .presentImage (f (j - 1)) (f (j - 1))] := by
  intro j hj
  obtain ⟨h1, h2, h3⟩ := runFrames_spec f s0 hn h0 (j - 1)
  unfold kthEndTrace
  rw [nominal_begin _ _ h2, nominal_end]
  simp only [h1, h3]

/-- Conclusion of claim C3 for the k-th frame of an uneventful run:
the k-th begin_frame blocks on (waits and resets) the fence at index
(k-1) mod F; the same frame's end_frame attaches that fence to its
submission; and for k ≥ 3 the submission that last used this fence
before frame k was exactly the one of frame k-F (frame k-1, the only
frame in between, used the other fence) — hence at most F = 2 frames
are ever in flight. -/
def c3Prop (f : Nat → Nat) (s0 : FrameState) (k : Nat) : Prop :=
  kthBeginTrace f s0 k =
    [.waitFence ((k - 1) % MAX_FRAMES_IN_FLIGHT),
     .resetFence ((k - 1) % MAX_FRAMES_IN_FLIGHT),
     .acquireImage (((k - 1) % MAX_FRAMES_IN_FLIGHT) % s0.swapchain_image_count),
     .resetCommandBuffer (f (k - 1)), .recordCommandBuffer (f (k - 1))] ∧
  kthEndTrace f s0 k =
    [.queueSubmit (((k - 1) % MAX_FRAMES_IN_FLIGHT) % s0.swapchain_image_count)
       (f (k - 1)) (f (k - 1)) ((k - 1) % MAX_FRAMES_IN_FLIGHT),
     .presentImage (f (k - 1)) (f (k - 1))] ∧
  (3 ≤ k →
    kthEndTrace f s0 (k - 2) =
      [.queueSubmit (((k - 1) % MAX_FRAMES_IN_FLIGHT) % s0.swapchain_image_count)
         (f (k - 3)) (f (k - 3)) ((k - 1) % MAX_FRAMES_IN_FLIGHT),
       .presentImage (f (k - 3)) (f (k - 3))] ∧
    (∀ j, k - 2 < j → j < k → ∀ w r c fence,
      FrameEvent.queueSubmit w r c fence ∈ kthEndTrace f s0 j →
        fence ≠ (k - 1) % MAX_FRAMES_IN_FLIGHT)) ∧
  MAX_FRAMES_IN_FLIGHT = 2

/-- C3: the fence schedule of the frame run bounds the frames in flight
by F = 2. -/
theorem c3_fence_schedule (f : Nat → Nat) (s0 : FrameState) (k : Nat)
    (hn : s0.needs_swapchain_recreation = false)
    (h0 : s0.current_frame = 0) (hk : 1 ≤ k) :
    c3Prop f s0 k := by
  obtain ⟨h1, h2, h3⟩ := runFrames_spec f s0 hn h0 (k - 1)
  refine ⟨?_, kthEndTrace_eq f s0 hn h0 k hk, ?_, rfl⟩
  · unfold kthBeginTrace
    rw [nominal_begin _ _ h2]
    simp only [h1, h3]
  · intro h3k
    constructor
    · rw [kthEndTrace_eq f s0 hn h0 (k - 2) (by omega)]
      rw [show k - 2 - 1 = k - 3 from by omega]
      rw [show (k - 3) % MAX_FRAMES_IN_FLIGHT = (k - 1) % MAX_FRAMES_IN_FLIGHT from by
        simp only [MAX_FRAMES_IN_FLIGHT]; omega]
    · intro j hj1 hj2 w r c fence hmem
      have hjeq : j = k - 1 := by omega
      subst hjeq
      rw [kthEndTrace_eq f s0 hn h0 (k - 1) (by omega)] at hmem
      simp only [List.mem_cons, List.not_mem_nil, or_false] at hmem
      rcases hmem with hmem | hmem
      · simp only [FrameEvent.queueSubmit.injEq] at hmem
        obtain ⟨_, _, _, hf⟩ := hmem
        rw [hf]
        simp only [MAX_FRAMES_IN_FLIGHT]
        omega
      · exact absurd hmem (by simp)

/-- Witness for C3 at a concrete run of three frames over a
three-image swapchain. -/
theorem c3_fence_schedule_witness :
    c3Prop (fun j => j % 3) ⟨0, 0, 0, 3, 800, 600, 800, 600, false⟩ 3 :=
  c3_fence_schedule (fun j => j % 3) ⟨0, 0, 0, 3, 800, 600, 800, 600, false⟩ 3
    rfl rfl (by omega)

end Poc
